import Mathlib

/-!
Shallow embedding of the DualSense controller monitor repository.
Relevant source files: src/dualsense/proto.rs (report codec),
src/dualsense/async_hid.rs (transport detector and session reads),
src/dualsense.rs (an earlier draft of the codec whose parse_report panics),
src/device_manager.rs (device registry and event fan-out).
Bytes are modelled as Nat; in every context the code constructs these
structures the field values are below 256, and the u16 arithmetic in the
decoders cannot overflow (largest intermediate value is 15 <<< 8 = 3840),
so no reduction modulo 2 ^ 16 is needed.
-/

/- Constants from src/dualsense/proto.rs lines 5 to 17. -/

def SONY_VID : Nat := 0x054C
def DUALSENSE_PID : Nat := 0x0CE6

def DS_INPUT_REPORT_USB : Nat := 0x01
def DS_INPUT_REPORT_USB_SIZE : Nat := 64
def DS_INPUT_REPORT_BT : Nat := 0x31
def DS_INPUT_REPORT_BT_SIZE : Nat := 78

def DS_STATUS_BATTERY_CAPACITY : Nat := 0xF
def DS_STATUS_CHARGING : Nat := 0xF0
def DS_STATUS_CHARGING_SHIFT : Nat := 4

/-- Touch point record, four bytes, from struct DualSenseTouchPoint in
proto.rs: contact, x_lo, xhi_ylo (x_hi in the high nibble, y_lo in the low
nibble), y_hi. -/
structure DualSenseTouchPoint where
  contact : Nat
  x_lo : Nat
  xhi_ylo : Nat
  y_hi : Nat
deriving DecidableEq

/-- Decoded x coordinate, from DualSenseTouchPoint::x in proto.rs:
x_hi is the high nibble of xhi_ylo, widened to u16, shifted left by 8 and
combined with x_lo. -/
def DualSenseTouchPoint.x (p : DualSenseTouchPoint) : Nat :=
  let x_hi := p.xhi_ylo >>> 4
  let x_lo := p.x_lo
  (x_hi <<< 8) ||| x_lo

/-- Decoded y coordinate, from DualSenseTouchPoint::y in proto.rs:
y_lo is the low nibble of xhi_ylo; the byte y_hi is shifted left by 4 and
combined with it. -/
def DualSenseTouchPoint.y (p : DualSenseTouchPoint) : Nat :=
  let y_lo := p.xhi_ylo &&& 0x0F
  let y_hi := p.y_hi
  (y_hi <<< 4) ||| y_lo

/-- Decoded input report payload, field for field the repr(C) struct
DualSenseInputReport of proto.rs. Byte arrays become lists of byte values;
the two touch points become a pair; the little-endian u16 and u32 words
are stored as their decoded numeric values. -/
structure DualSenseInputReport where
  x : Nat
  y : Nat
  rx : Nat
  ry : Nat
  z : Nat
  rz : Nat
  seq_number : Nat
  buttons : List Nat
  reserved : List Nat
  gyro : List Nat
  accel : List Nat
  sensor_timestamp : Nat
  reserved2 : Nat
  points : DualSenseTouchPoint × DualSenseTouchPoint
  reserved3 : List Nat
  status : Nat
  reserved4 : List Nat
deriving DecidableEq

/-- Size in bytes of the payload struct, the sum of its field sizes in
declaration order, mirroring core mem size_of on the repr(C) struct
(DS_INPUT_REPORT_SIZE in proto.rs): six stick and trigger bytes, the
sequence number, four button bytes, four reserved bytes, three u16 gyro
words, three u16 accel words, the u32 timestamp, one reserved byte, two
four-byte touch points, twelve reserved bytes, the status byte, ten
trailing reserved bytes. -/
def DS_INPUT_REPORT_SIZE : Nat :=
  6 + 1 + 4 + 4 + 3 * 2 + 3 * 2 + 4 + 1 + 2 * 4 + 12 + 1 + 10

/-- Reads one byte from the head of the buffer, returning the rest.
Reading past the end yields zero, which never happens in the contexts the
code uses it: every caller has checked or statically fixed the buffer
length. -/
def readByte : List Nat → Nat × List Nat
  | [] => (0, [])
  | b :: rest => (b, rest)

/-- Reads a little-endian u16, low byte first, as zerocopy U16 with the
LittleEndian marker does. -/
def readU16LE (l : List Nat) : Nat × List Nat :=
  let (lo, l) := readByte l
  let (hi, l) := readByte l
  (lo + 256 * hi, l)

/-- Reads a little-endian u32, least significant byte first. -/
def readU32LE (l : List Nat) : Nat × List Nat :=
  let (b0, l) := readByte l
  let (b1, l) := readByte l
  let (b2, l) := readByte l
  let (b3, l) := readByte l
  (b0 + 256 * b1 + 65536 * b2 + 16777216 * b3, l)

/-- Reads three consecutive little-endian u16 words, as the gyro and accel
arrays of the report struct are laid out. -/
def readU16x3 (l : List Nat) : List Nat × List Nat :=
  let (a, l) := readU16LE l
  let (b, l) := readU16LE l
  let (c, l) := readU16LE l
  ([a, b, c], l)

/-- Reads the four bytes of one touch point record in declaration order. -/
def readTouchPoint (l : List Nat) : DualSenseTouchPoint × List Nat :=
  let (contact, l) := readByte l
  let (x_lo, l) := readByte l
  let (xhi_ylo, l) := readByte l
  let (y_hi, l) := readByte l
  ({ contact, x_lo, xhi_ylo, y_hi }, l)

/-- Reads four raw bytes, for the buttons and reserved arrays. -/
def readBytes4 (l : List Nat) : List Nat × List Nat :=
  let (b0, l) := readByte l
  let (b1, l) := readByte l
  let (b2, l) := readByte l
  let (b3, l) := readByte l
  ([b0, b1, b2, b3], l)

/-- Reads twelve raw bytes, for the reserved3 array. -/
def readBytes12 (l : List Nat) : List Nat × List Nat :=
  let (a, l) := readBytes4 l
  let (b, l) := readBytes4 l
  let (c, l) := readBytes4 l
  (a ++ b ++ c, l)

/-- Reads ten raw bytes, for the reserved4 array. -/
def readBytes10 (l : List Nat) : List Nat × List Nat :=
  let (a, l) := readBytes4 l
  let (b, l) := readBytes4 l
  let (c0, l) := readByte l
  let (c1, l) := readByte l
  (a ++ b ++ [c0, c1], l)

/-- Sequential decoding of the payload, one field after the other in the
declaration order of the repr(C) struct DualSenseInputReport. This is the
shallow embedding of the zerocopy byte overlay: the offset of each field
is determined solely by the sizes of the fields before it. -/
def parsePayload (l : List Nat) : DualSenseInputReport :=
  let (x, l) := readByte l
  let (y, l) := readByte l
  let (rx, l) := readByte l
  let (ry, l) := readByte l
  let (z, l) := readByte l
  let (rz, l) := readByte l
  let (seq_number, l) := readByte l
  let (buttons, l) := readBytes4 l
  let (reserved, l) := readBytes4 l
  let (gyro, l) := readU16x3 l
  let (accel, l) := readU16x3 l
  let (sensor_timestamp, l) := readU32LE l
  let (reserved2, l) := readByte l
  let (point0, l) := readTouchPoint l
  let (point1, l) := readTouchPoint l
  let (reserved3, l) := readBytes12 l
  let (status, l) := readByte l
  let (reserved4, _) := readBytes10 l
  { x, y, rx, ry, z, rz, seq_number, buttons, reserved, gyro, accel,
    sensor_timestamp, reserved2, points := (point0, point1), reserved3,
    status, reserved4 }

/-- Battery decoding from DualSenseInputReport::battery in proto.rs:
capacity is the low nibble of the status byte, the second component is
the high nibble shifted down (the charging indicator; the consumer treats
any nonzero value as charging). -/
def DualSenseInputReport.battery (r : DualSenseInputReport) : Nat × Nat :=
  let s := r.status
  let capacity := s &&& DS_STATUS_BATTERY_CAPACITY
  let charging := (s &&& DS_STATUS_CHARGING) >>> DS_STATUS_CHARGING_SHIFT
  (capacity, charging)

/-- Length-guarded parse from DualSenseInputReport::parse in proto.rs: the
payload offset is chosen from the value of the first byte (0x01 means USB,
offset 1; 0x31 means Bluetooth, offset 2; anything else fails), then the
slice of exactly DS_INPUT_REPORT_SIZE bytes starting there is required to
exist, and the overlay on that slice cannot fail. -/
def DualSenseInputReport.parse (data : List Nat) : Option DualSenseInputReport :=
  match data with
  | [] => none
  | b :: _ =>
    let offs : Option Nat :=
      if b = DS_INPUT_REPORT_USB then some 1
      else if b = DS_INPUT_REPORT_BT then some 2
      else none
    match offs with
    | none => none
    | some offset =>
      if offset + DS_INPUT_REPORT_SIZE ≤ data.length then
        some (parsePayload (data.drop offset))
      else
        none

/- Transport detection and session reads, from src/dualsense/async_hid.rs. -/

/-- Connection kind, enum DualSenseConnectionType in async_hid.rs. -/
inductive DualSenseConnectionType where
  | USB
  | BT
deriving DecidableEq

/-- Length-based transport classifier, DualSenseConnectionType::from_report_size
in async_hid.rs: 78 bytes is Bluetooth, 64 bytes is USB, anything else is
unrecognized. -/
def DualSenseConnectionType.from_report_size (size : Nat) : Option DualSenseConnectionType :=
  if size = DS_INPUT_REPORT_BT_SIZE then some .BT
  else if size = DS_INPUT_REPORT_USB_SIZE then some .USB
  else none

/-- Expected report size per transport, DualSenseConnectionType::report_size. -/
def DualSenseConnectionType.report_size : DualSenseConnectionType → Nat
  | .USB => DS_INPUT_REPORT_USB_SIZE
  | .BT => DS_INPUT_REPORT_BT_SIZE

/-- Display string of the connection kind, from the Display impl. -/
def DualSenseConnectionType.display : DualSenseConnectionType → String
  | .USB => "USB"
  | .BT => "BT"

/-- Error taxonomy of the async-hid read paths as the code constructs it:
NotConnected on open timeout, Disconnected on read timeout or zero-length
read, message for the unknown-report-size failure at open. -/
inductive HidError where
  | NotConnected
  | Disconnected
  | message (s : String)
deriving DecidableEq

/-- Payload offset of the input_report field inside each framing struct of
proto.rs: in DualSenseInputReportUSB it follows the single report_id byte,
in DualSenseInputReportBT it follows report_id plus one padding byte. -/
def payloadOffset : DualSenseConnectionType → Nat
  | .USB => 1
  | .BT => 1 + 1

/-- Total size of the framing struct DualSenseInputReportUSB: report_id,
the payload, and fourteen bytes of trailing padding kept so that the USB
struct matches the Bluetooth wire size. -/
def usbFrameSize : Nat := 1 + DS_INPUT_REPORT_SIZE + 14

/-- Total size of the framing struct DualSenseInputReportBT: report_id,
one padding byte, the payload, and thirteen trailing padding bytes. -/
def btFrameSize : Nat := 1 + 1 + DS_INPUT_REPORT_SIZE + 13

/-- One session read, DualSenseConnection::read_input_report in
async_hid.rs, as a pure function of the cached connection type and the
outcome of the raw timed read (the filled 78-byte buffer together with the
byte count, or the timeout error). The raw read error propagates; a zero
byte count becomes the Disconnected error; otherwise the buffer is
reinterpreted through the framing struct chosen by the CACHED connection
type (the match on self.connection_type in the source) and the embedded
payload is returned. The source never consults the fresh byte count for
classification and never writes self.connection_type, so the returned
post-call connection type is the one passed in. -/
def read_input_report (ct : DualSenseConnectionType)
    (readRes : Except HidError (List Nat × Nat)) :
    Except HidError (DualSenseInputReport × DualSenseConnectionType) :=
  match readRes with
  | .error e => .error e
  | .ok (buf, size) =>
    if size = 0 then .error .Disconnected
    else
      match ct with
      | .USB => .ok (parsePayload (buf.drop 1), .USB)
      | .BT => .ok (parsePayload (buf.drop 2), .BT)

/- Draft codec from src/dualsense.rs, the variant wired into main.rs. -/

/-- Outcome of the draft parser of dualsense.rs, which can panic: ok
carries the decoded report, panicked carries the panic message. -/
inductive ParseOutcome where
  | ok (r : DualSenseInputReport)
  | panicked (msg : String)
deriving DecidableEq

/-- Draft parser DualSenseInputReport::parse_report in src/dualsense.rs:
the offset is chosen by matching the read SIZE against the two known
report sizes, any other size panics with the message Unknown report
format; a buffer too short for the slice at that offset panics through
expect with Invalid report size; the overlay itself cannot fail. -/
def DualSenseInputReport.parse_report (data : List Nat) (size : Nat) : ParseOutcome :=
  if size = DS_INPUT_REPORT_USB_SIZE then
    if 1 + DS_INPUT_REPORT_SIZE ≤ data.length then
      .ok (parsePayload (data.drop 1))
    else
      .panicked "Invalid report size"
  else if size = DS_INPUT_REPORT_BT_SIZE then
    if 2 + DS_INPUT_REPORT_SIZE ≤ data.length then
      .ok (parsePayload (data.drop 2))
    else
      .panicked "Invalid report size"
  else .panicked "Unknown report format"

/- Device registry and event fan-out, from src/device_manager.rs. -/

/-- Events emitted to the registered handler, enum DeviceManagerEvent.
The device identity is modelled as a Nat. The source declares the
BatteryUpdate payload as a pair of percentage and charging flag and fills
it with the two components returned by battery, so the charging component
here is the numeric high nibble as battery produces it. -/
inductive DeviceManagerEvent where
  | Connected (id : Nat) (deviceName : String)
  | Disconnected (id : Nat)
  | BatteryUpdate (id : Nat) (capacity : Nat) (charging : Nat)
deriving DecidableEq

/-- An opened device as struct DualSense of async_hid.rs holds it: its
identity and the connection type learned from the first read at open. -/
structure DualSense where
  id : Nat
  connection_type : DualSenseConnectionType
deriving DecidableEq

/-- Device display name, DualSense::name in async_hid.rs. -/
def DualSense.name (d : DualSense) : String :=
  "DualSense " ++ d.connection_type.display

/-- The registry map opened_devices, device identity to opened session,
modelled as an association list with the replacing insert of HashMap. -/
def Registry := List (Nat × DualSense)

instance : DecidableEq Registry := by
  unfold Registry
  exact inferInstance

/-- HashMap::insert on the registry: the new binding replaces any previous
binding of the same identity. -/
def insertEntry (reg : Registry) (id : Nat) (d : DualSense) : Registry :=
  (id, d) :: reg.filter (fun p => p.1 ≠ id)

/-- HashMap lookup as a membership test on the identity. -/
def containsId (reg : Registry) (id : Nat) : Bool :=
  reg.any (fun p => p.1 = id)

/-- DeviceManager::update_device_status as a pure function: handlerSet
models whether an event handler is registered, readRes is the combined
outcome of connecting to the device and reading one input report inside
the spawned task. On success one BatteryUpdate event carrying the two
battery components is emitted; any error makes the task return early and
the awaiting caller discards the result. The method never touches the
opened_devices map, so the registry passes through unchanged. -/
def update_device_status (handlerSet : Bool) (reg : Registry) (id : Nat)
    (readRes : Except HidError DualSenseInputReport) :
    Registry × List DeviceManagerEvent :=
  if handlerSet then
    match readRes with
    | .ok r => (reg, [.BatteryUpdate id (r.battery).1 (r.battery).2])
    | .error _ => (reg, [])
  else (reg, [])

/-- DeviceManager::close_device: the entry is removed from the map, then
one Disconnected event is emitted if a handler is registered. -/
def close_device (handlerSet : Bool) (reg : Registry) (id : Nat) :
    Registry × List DeviceManagerEvent :=
  (reg.filter (fun p => p.1 ≠ id),
   if handlerSet then [.Disconnected id] else [])

/-- DeviceManager::insert_device: the opened device is inserted into the
map; if a handler is registered a Connected event with the device name is
emitted and update_device_status runs immediately after with the device's
first status read. -/
def insert_device (handlerSet : Bool) (reg : Registry) (d : DualSense)
    (readRes : Except HidError DualSenseInputReport) :
    Registry × List DeviceManagerEvent :=
  let reg1 := insertEntry reg d.id d
  if handlerSet then
    let res := update_device_status handlerSet reg1 d.id readRes
    (res.1, .Connected d.id d.name :: res.2)
  else (reg1, [])

/-- Loop body of DeviceManager::open_all_devices over the joined open
outcomes: a failed open is skipped, a successful open is inserted via
insert_device. Each successful outcome carries the device and the result
of its first status read. -/
def open_all_loop (handlerSet : Bool) (reg : Registry)
    (outcomes : List (Except HidError (DualSense × Except HidError DualSenseInputReport))) :
    Registry × List DeviceManagerEvent :=
  match outcomes with
  | [] => (reg, [])
  | .error _ :: rest => open_all_loop handlerSet reg rest
  | .ok (d, rr) :: rest =>
    let res := insert_device handlerSet reg d rr
    let resRest := open_all_loop handlerSet res.1 rest
    (resRest.1, res.2 ++ resRest.2)

/-- DeviceManager::open_all_devices after a successful enumeration: every
open runs as its own task and the joined outcomes are folded through
insert_device; the function itself always returns Ok. -/
def open_all_devices (handlerSet : Bool) (reg : Registry)
    (outcomes : List (Except HidError (DualSense × Except HidError DualSenseInputReport))) :
    Except HidError (Registry × List DeviceManagerEvent) :=
  .ok (open_all_loop handlerSet reg outcomes)

/-- Counts the Connected events in an emitted event list. -/
def countConnected (evs : List DeviceManagerEvent) : Nat :=
  evs.countP (fun e => match e with
    | .Connected _ _ => true
    | _ => false)

/-- Counts the successful outcomes among the joined open results. -/
def countOk (outcomes : List (Except HidError (DualSense × Except HidError DualSenseInputReport))) : Nat :=
  outcomes.countP (fun o => match o with
    | .ok _ => true
    | _ => false)

/-- Touch point encoder for the round-trip property.
Modelled from the spec: the repository has no encoder, only the decoder;
section 3 of the spec describes the packing as the low byte plus the high
nibble of the shared byte forming X, and the low nibble of the shared byte
plus the high byte forming Y. The contact byte is irrelevant to the
coordinates and is set to zero. -/
def encodeTouchPoint (xCoord yCoord : Nat) : DualSenseTouchPoint :=
  { contact := 0
    x_lo := xCoord &&& 0xFF
    xhi_ylo := ((xCoord >>> 8) <<< 4) ||| (yCoord &&& 0x0F)
    y_hi := yCoord >>> 4 }

/- Concrete inputs used to instantiate the theorems below. -/

/-- A 63-byte payload whose status byte (offset 52) is 0x15. -/
def exPayloadStatus15 : List Nat :=
  List.replicate 52 0 ++ [0x15] ++ List.replicate 10 0

/-- The report decoded from that payload. -/
def exReportStatus15 : DualSenseInputReport := parsePayload exPayloadStatus15

/-- A 78-byte buffer with pairwise distinct bytes, so that decoding it at
payload offset 1 and at payload offset 2 gives different reports. -/
def exBuf78 : List Nat := List.range 78

/-- An opened device with identity 7. -/
def exDev : DualSense := { id := 7, connection_type := DualSenseConnectionType.USB }

/-- Joined open outcomes with one success and one failure. -/
def exOutcomes : List (Except HidError (DualSense × Except HidError DualSenseInputReport)) :=
  [Except.ok ({ id := 3, connection_type := DualSenseConnectionType.USB },
     Except.error HidError.Disconnected),
   Except.error HidError.NotConnected]

/- Helper lemmas evaluating the sequential parser combinators. -/

theorem readByte_eq (l : List Nat) : readByte l = (l.getD 0 0, l.drop 1) := by
  cases l <;> rfl

theorem getD_drop (l : List Nat) (n i : Nat) :
    (l.drop n).getD i 0 = l.getD (n + i) 0 := by
  induction n generalizing l with
  | zero => simp
  | succ n ih =>
    cases l with
    | nil => simp
    | cons a t =>
      have h : n + 1 + i = (n + i) + 1 := by omega
      simp [List.drop, ih, h]

theorem readU16LE_eq (l : List Nat) :
    readU16LE l = (l.getD 0 0 + 256 * l.getD 1 0, l.drop 2) := by
  simp [readU16LE, readByte_eq, getD_drop, List.drop_drop]

theorem readU32LE_eq (l : List Nat) :
    readU32LE l = (l.getD 0 0 + 256 * l.getD 1 0 + 65536 * l.getD 2 0 +
      16777216 * l.getD 3 0, l.drop 4) := by
  simp [readU32LE, readByte_eq, getD_drop, List.drop_drop]

theorem readU16x3_eq (l : List Nat) :
    readU16x3 l = ([l.getD 0 0 + 256 * l.getD 1 0,
      l.getD 2 0 + 256 * l.getD 3 0,
      l.getD 4 0 + 256 * l.getD 5 0], l.drop 6) := by
  simp [readU16x3, readU16LE_eq, getD_drop, List.drop_drop]

theorem readTouchPoint_eq (l : List Nat) :
    readTouchPoint l =
      ({ contact := l.getD 0 0, x_lo := l.getD 1 0,
         xhi_ylo := l.getD 2 0, y_hi := l.getD 3 0 }, l.drop 4) := by
  simp [readTouchPoint, readByte_eq, getD_drop, List.drop_drop]

theorem readBytes4_eq (l : List Nat) :
    readBytes4 l = ([l.getD 0 0, l.getD 1 0, l.getD 2 0, l.getD 3 0],
      l.drop 4) := by
  simp [readBytes4, readByte_eq, getD_drop, List.drop_drop]

theorem readBytes12_eq (l : List Nat) :
    readBytes12 l = ([l.getD 0 0, l.getD 1 0, l.getD 2 0, l.getD 3 0,
      l.getD 4 0, l.getD 5 0, l.getD 6 0, l.getD 7 0,
      l.getD 8 0, l.getD 9 0, l.getD 10 0, l.getD 11 0], l.drop 12) := by
  simp [readBytes12, readBytes4_eq, getD_drop, List.drop_drop]

theorem readBytes10_eq (l : List Nat) :
    readBytes10 l = ([l.getD 0 0, l.getD 1 0, l.getD 2 0, l.getD 3 0,
      l.getD 4 0, l.getD 5 0, l.getD 6 0, l.getD 7 0,
      l.getD 8 0, l.getD 9 0], l.drop 10) := by
  simp [readBytes10, readBytes4_eq, readByte_eq, getD_drop, List.drop_drop]

/-- Evaluation of the sequential payload parser: each field of the decoded
report is the byte (or little-endian word) of the buffer at the cumulative
offset of the preceding field sizes. -/
theorem parsePayload_eq (l : List Nat) :
    parsePayload l =
      { x := l.getD 0 0, y := l.getD 1 0, rx := l.getD 2 0, ry := l.getD 3 0,
        z := l.getD 4 0, rz := l.getD 5 0,
        seq_number := l.getD 6 0,
        buttons := [l.getD 7 0, l.getD 8 0, l.getD 9 0, l.getD 10 0],
        reserved := [l.getD 11 0, l.getD 12 0, l.getD 13 0, l.getD 14 0],
        gyro := [l.getD 15 0 + 256 * l.getD 16 0,
                 l.getD 17 0 + 256 * l.getD 18 0,
                 l.getD 19 0 + 256 * l.getD 20 0],
        accel := [l.getD 21 0 + 256 * l.getD 22 0,
                  l.getD 23 0 + 256 * l.getD 24 0,
                  l.getD 25 0 + 256 * l.getD 26 0],
        sensor_timestamp := l.getD 27 0 + 256 * l.getD 28 0 +
          65536 * l.getD 29 0 + 16777216 * l.getD 30 0,
        reserved2 := l.getD 31 0,
        points := ({ contact := l.getD 32 0, x_lo := l.getD 33 0,
                     xhi_ylo := l.getD 34 0, y_hi := l.getD 35 0 },
                   { contact := l.getD 36 0, x_lo := l.getD 37 0,
                     xhi_ylo := l.getD 38 0, y_hi := l.getD 39 0 }),
        reserved3 := [l.getD 40 0, l.getD 41 0, l.getD 42 0, l.getD 43 0,
                      l.getD 44 0, l.getD 45 0, l.getD 46 0, l.getD 47 0,
                      l.getD 48 0, l.getD 49 0, l.getD 50 0, l.getD 51 0],
        status := l.getD 52 0,
        reserved4 := [l.getD 53 0, l.getD 54 0, l.getD 55 0, l.getD 56 0,
                      l.getD 57 0, l.getD 58 0, l.getD 59 0, l.getD 60 0,
                      l.getD 61 0, l.getD 62 0] } := by
  simp [parsePayload, readByte_eq, readBytes4_eq, readBytes12_eq,
    readBytes10_eq, readU16x3_eq, readU32LE_eq, readTouchPoint_eq,
    readU16LE_eq, getD_drop, List.drop_drop]

/- Bit manipulation helper lemmas for nibble packing. -/

theorem shl_or_shr (k a b : Nat) (hb : b < 2 ^ k) :
    ((a <<< k) ||| b) >>> k = a := by
  apply Nat.eq_of_testBit_eq
  intro i
  have hb' : b < 2 ^ (k + i) :=
    lt_of_lt_of_le hb (Nat.pow_le_pow_right (by norm_num) (Nat.le_add_right k i))
  simp [Nat.testBit_shiftRight, Nat.testBit_lor, Nat.testBit_shiftLeft,
    Nat.testBit_lt_two_pow hb', Nat.le_add_right]

theorem shl_or_and (k a b : Nat) (hb : b < 2 ^ k) :
    ((a <<< k) ||| b) &&& (2 ^ k - 1) = b := by
  apply Nat.eq_of_testBit_eq
  intro i
  rcases lt_or_ge i k with h | h
  · simp [Nat.testBit_land, Nat.testBit_lor, Nat.testBit_shiftLeft,
      Nat.testBit_two_pow_sub_one, h, Nat.not_le.mpr h]
  · have hb' : b < 2 ^ i := lt_of_lt_of_le hb (Nat.pow_le_pow_right (by norm_num) h)
    simp [Nat.testBit_land, Nat.testBit_two_pow_sub_one, Nat.not_lt.mpr h,
      Nat.testBit_lt_two_pow hb']

theorem shr_shl_or_and (k n : Nat) :
    ((n >>> k) <<< k) ||| (n &&& (2 ^ k - 1)) = n := by
  apply Nat.eq_of_testBit_eq
  intro i
  rcases lt_or_ge i k with h | h
  · simp [Nat.testBit_lor, Nat.testBit_shiftLeft, Nat.testBit_land,
      Nat.testBit_two_pow_sub_one, h, Nat.not_le.mpr h]
  · have hik : k + (i - k) = i := by omega
    simp [Nat.testBit_lor, Nat.testBit_shiftLeft, Nat.testBit_shiftRight,
      Nat.testBit_land, Nat.testBit_two_pow_sub_one, h, Nat.not_lt.mpr h, hik]

theorem or16_shr (a b : Nat) (hb : b < 16) : ((a <<< 4) ||| b) >>> 4 = a :=
  shl_or_shr 4 a b (by norm_num at hb ⊢; omega)

theorem or16_and (a b : Nat) (hb : b < 16) : ((a <<< 4) ||| b) &&& 15 = b := by
  have h := shl_or_and 4 a b (by omega)
  norm_num at h
  exact h

theorem split8 (n : Nat) : ((n >>> 8) <<< 8) ||| (n &&& 255) = n := by
  have h := shr_shl_or_and 8 n
  norm_num at h
  exact h

theorem split4 (n : Nat) : ((n >>> 4) <<< 4) ||| (n &&& 15) = n := by
  have h := shr_shl_or_and 4 n
  norm_num at h
  exact h

/-- C1 counterexample: for the record with shared nibble byte 0x01 and
fourth byte 0x02 the decoder of the source yields Y = 33 (the fourth byte
supplies the HIGH bits), while the claimed formula
(shared_nibble_byte and 0x0F) shifted left by 4, or-ed with y_hi_byte,
yields 18, so the claimed Y formula disagrees with the code. -/
theorem c1_y_formula_counterexample :
    DualSenseTouchPoint.y { contact := 0, x_lo := 0, xhi_ylo := 1, y_hi := 2 } = 33 ∧
    ((1 &&& 0x0F) <<< 4) ||| 2 = 18 ∧
    DualSenseTouchPoint.y { contact := 0, x_lo := 0, xhi_ylo := 1, y_hi := 2 } ≠
      ((1 &&& 0x0F) <<< 4) ||| 2 := by
  refine ⟨rfl, rfl, by decide⟩

/-- C1 amended: for every touch point record with byte-valued fields the
decoded coordinates are X = (shared_nibble_byte >> 4) << 8 | x_lo_byte and
Y = (y_hi_byte << 4) | (shared_nibble_byte & 0x0F), and both lie in the
range 0 to 4095. -/
theorem c1_touch_decode_amended (p : DualSenseTouchPoint)
    (hx : p.x_lo < 256) (hs : p.xhi_ylo < 256) (hy : p.y_hi < 256) :
    p.x = ((p.xhi_ylo >>> 4) <<< 8) ||| p.x_lo ∧
    p.y = (p.y_hi <<< 4) ||| (p.xhi_ylo &&& 0x0F) ∧
    p.x ≤ 4095 ∧ p.y ≤ 4095 := by
  refine ⟨rfl, rfl, ?_, ?_⟩
  · have h1 : p.xhi_ylo >>> 4 < 16 := by
      rw [Nat.shiftRight_eq_div_pow]
      omega
    have h2 : (p.xhi_ylo >>> 4) <<< 8 < 4096 := by
      rw [Nat.shiftLeft_eq]
      omega
    have h3 : ((p.xhi_ylo >>> 4) <<< 8) ||| p.x_lo < 4096 :=
      Nat.or_lt_two_pow (n := 12) h2 (by omega)
    have hxx : p.x = ((p.xhi_ylo >>> 4) <<< 8) ||| p.x_lo := rfl
    omega
  · have h1 : p.y_hi <<< 4 < 4096 := by
      rw [Nat.shiftLeft_eq]
      omega
    have h2 : p.xhi_ylo &&& 0x0F < 4096 := by
      have := Nat.and_le_right (n := p.xhi_ylo) (m := 0x0F)
      omega
    have h3 : (p.y_hi <<< 4) ||| (p.xhi_ylo &&& 0x0F) < 4096 :=
      Nat.or_lt_two_pow (n := 12) h1 h2
    have hyy : p.y = (p.y_hi <<< 4) ||| (p.xhi_ylo &&& 0x0F) := rfl
    omega

/-- C1 witness: the amended statement instantiated at a concrete record. -/
theorem c1_touch_decode_amended_witness :
    DualSenseTouchPoint.x { contact := 0, x_lo := 0xAB, xhi_ylo := 0xCD, y_hi := 0xEF } =
      ((0xCD >>> 4) <<< 8) ||| 0xAB ∧
    DualSenseTouchPoint.y { contact := 0, x_lo := 0xAB, xhi_ylo := 0xCD, y_hi := 0xEF } =
      (0xEF <<< 4) ||| (0xCD &&& 0x0F) ∧
    DualSenseTouchPoint.x { contact := 0, x_lo := 0xAB, xhi_ylo := 0xCD, y_hi := 0xEF } ≤ 4095 ∧
    DualSenseTouchPoint.y { contact := 0, x_lo := 0xAB, xhi_ylo := 0xCD, y_hi := 0xEF } ≤ 4095 :=
  c1_touch_decode_amended
    { contact := 0, x_lo := 0xAB, xhi_ylo := 0xCD, y_hi := 0xEF }
    (by decide) (by decide) (by decide)

/-- C9: encoding a coordinate pair with both components at most 4095 into
the nibble-packed record and decoding it with the decoder of the source
reproduces the pair exactly. -/
theorem c9_touch_roundtrip (X Y : Nat) (hX : X ≤ 4095) (hY : Y ≤ 4095) :
    (encodeTouchPoint X Y).x = X ∧ (encodeTouchPoint X Y).y = Y := by
  have h15 : Y &&& 15 < 16 := by
    have := Nat.and_le_right (n := Y) (m := 15)
    omega
  constructor
  · show (((((X >>> 8) <<< 4) ||| (Y &&& 15)) >>> 4) <<< 8) ||| (X &&& 255) = X
    rw [or16_shr _ _ h15, split8]
  · show ((Y >>> 4) <<< 4) ||| ((((X >>> 8) <<< 4) ||| (Y &&& 15)) &&& 15) = Y
    rw [or16_and _ _ h15, split4]

/-- C9 witness: the round trip at the concrete pair (1234, 567). -/
theorem c9_touch_roundtrip_witness :
    (encodeTouchPoint 1234 567).x = 1234 ∧ (encodeTouchPoint 1234 567).y = 567 :=
  c9_touch_roundtrip 1234 567 (by decide) (by decide)

/- Battery decoding helper. -/

set_option maxRecDepth 4096 in
theorem battery_nibbles : ∀ s : Nat, s < 256 →
    (s &&& 0xF, (s &&& 0xF0) >>> 4) = (s % 16, s / 16) := by decide

/-- C2: for every report whose status is a byte, the battery decoder
yields capacity equal to the low nibble of the status and a charging
component equal to the high nibble shifted down; the charging component is
nonzero exactly when the high nibble of the status is nonzero, and the
three particular status bytes 0x05, 0x15 and 0x00 decode to capacity 5
not charging, capacity 5 charging, and capacity 0 respectively. -/
theorem c2_battery_decode (r : DualSenseInputReport) (h : r.status < 256) :
    r.battery = (r.status % 16, r.status / 16) ∧
    ((r.battery).2 ≠ 0 ↔ 16 ≤ r.status) ∧
    (r.status = 0x05 → r.battery = (5, 0)) ∧
    (r.status = 0x15 → r.battery = (5, 1)) ∧
    (r.status = 0x00 → r.battery = (0, 0)) := by
  have f : r.battery = (r.status % 16, r.status / 16) := by
    show (r.status &&& 0xF, (r.status &&& 0xF0) >>> 4) = _
    exact battery_nibbles r.status h
  refine ⟨f, ?_, ?_, ?_, ?_⟩
  · rw [f]
    show r.status / 16 ≠ 0 ↔ 16 ≤ r.status
    omega
  · intro hs
    rw [f, hs]
  · intro hs
    rw [f, hs]
  · intro hs
    rw [f, hs]

/-- C2 witness: the battery decoding of the concrete report whose status
byte is 0x15. -/
theorem c2_battery_decode_witness :
    exReportStatus15.battery = (5, 1) ∧ exReportStatus15.battery.2 ≠ 0 := by
  have h := c2_battery_decode exReportStatus15 (by decide)
  exact ⟨h.2.2.2.1 (by decide), by rw [h.2.2.2.1 (by decide)]; decide⟩

/-- C6: every decoded payload has its fields at the fixed payload-relative
offsets of the wire format table: sticks and triggers at 0 to 5, sequence
number at 6, the four button bytes at 7 to 10, the three gyro words at 15
little-endian, the three accel words at 21 little-endian, the sensor
timestamp at 27 little-endian, the two touch point records at 32 to 39,
the status byte at 52; the payload begins at raw-buffer offset 1 for USB
and 2 for Bluetooth, and the USB and Bluetooth framing structs both have
total size 78 bytes. -/
theorem c6_report_layout (buf : List Nat) :
    (parsePayload buf).x = buf.getD 0 0 ∧
    (parsePayload buf).y = buf.getD 1 0 ∧
    (parsePayload buf).rx = buf.getD 2 0 ∧
    (parsePayload buf).ry = buf.getD 3 0 ∧
    (parsePayload buf).z = buf.getD 4 0 ∧
    (parsePayload buf).rz = buf.getD 5 0 ∧
    (parsePayload buf).seq_number = buf.getD 6 0 ∧
    (parsePayload buf).buttons =
      [buf.getD 7 0, buf.getD 8 0, buf.getD 9 0, buf.getD 10 0] ∧
    (parsePayload buf).gyro =
      [buf.getD 15 0 + 256 * buf.getD 16 0,
       buf.getD 17 0 + 256 * buf.getD 18 0,
       buf.getD 19 0 + 256 * buf.getD 20 0] ∧
    (parsePayload buf).accel =
      [buf.getD 21 0 + 256 * buf.getD 22 0,
       buf.getD 23 0 + 256 * buf.getD 24 0,
       buf.getD 25 0 + 256 * buf.getD 26 0] ∧
    (parsePayload buf).sensor_timestamp =
      buf.getD 27 0 + 256 * buf.getD 28 0 + 65536 * buf.getD 29 0 +
        16777216 * buf.getD 30 0 ∧
    (parsePayload buf).points =
      ({ contact := buf.getD 32 0, x_lo := buf.getD 33 0,
         xhi_ylo := buf.getD 34 0, y_hi := buf.getD 35 0 },
       { contact := buf.getD 36 0, x_lo := buf.getD 37 0,
         xhi_ylo := buf.getD 38 0, y_hi := buf.getD 39 0 }) ∧
    (parsePayload buf).status = buf.getD 52 0 ∧
    payloadOffset DualSenseConnectionType.USB = 1 ∧
    payloadOffset DualSenseConnectionType.BT = 2 ∧
    usbFrameSize = 78 ∧ btFrameSize = 78 := by
  simp [parsePayload_eq, payloadOffset, usbFrameSize, btFrameSize,
    DS_INPUT_REPORT_SIZE]

/-- C10: the parse function of proto.rs is total over arbitrary byte
buffers: an empty buffer yields none, a first byte other than 0x01 or 0x31
yields none, a first byte of 0x01 selects payload offset 1 and succeeds
exactly when the buffer holds at least 64 bytes, and a first byte of 0x31
selects payload offset 2 and succeeds exactly when the buffer holds at
least 65 bytes; in particular no input panics or reads out of bounds. -/
theorem c10_parse_total (data : List Nat) :
    (data = [] → DualSenseInputReport.parse data = none) ∧
    (∀ b t, data = b :: t → b ≠ 0x01 → b ≠ 0x31 →
      DualSenseInputReport.parse data = none) ∧
    (∀ t, data = 0x01 :: t → 64 ≤ data.length →
      DualSenseInputReport.parse data = some (parsePayload (data.drop 1))) ∧
    (∀ t, data = 0x01 :: t → data.length < 64 →
      DualSenseInputReport.parse data = none) ∧
    (∀ t, data = 0x31 :: t → 65 ≤ data.length →
      DualSenseInputReport.parse data = some (parsePayload (data.drop 2))) ∧
    (∀ t, data = 0x31 :: t → data.length < 65 →
      DualSenseInputReport.parse data = none) := by
  refine ⟨?_, ?_, ?_, ?_, ?_, ?_⟩
  · intro h
    subst h
    rfl
  · intro b t h h1 h31
    subst h
    simp [DualSenseInputReport.parse, DS_INPUT_REPORT_USB, DS_INPUT_REPORT_BT,
      h1, h31]
  · intro t h hlen
    subst h
    simp only [List.length_cons] at hlen
    simp [DualSenseInputReport.parse, DS_INPUT_REPORT_USB, DS_INPUT_REPORT_BT,
      DS_INPUT_REPORT_SIZE]
    omega
  · intro t h hlen
    subst h
    simp only [List.length_cons] at hlen
    simp [DualSenseInputReport.parse, DS_INPUT_REPORT_USB, DS_INPUT_REPORT_BT,
      DS_INPUT_REPORT_SIZE]
    omega
  · intro t h hlen
    subst h
    simp only [List.length_cons] at hlen
    simp [DualSenseInputReport.parse, DS_INPUT_REPORT_USB, DS_INPUT_REPORT_BT,
      DS_INPUT_REPORT_SIZE]
    omega
  · intro t h hlen
    subst h
    simp only [List.length_cons] at hlen
    simp [DualSenseInputReport.parse, DS_INPUT_REPORT_USB, DS_INPUT_REPORT_BT,
      DS_INPUT_REPORT_SIZE]
    omega

/-- C10 witness: a 64-byte buffer that starts with 0x31 yields none, a
buffer of 81 bytes that starts with 0x01 decodes, the empty buffer and a
buffer with an unknown first byte yield none. -/
theorem c10_parse_total_witness :
    DualSenseInputReport.parse (0x31 :: List.replicate 63 0) = none ∧
    DualSenseInputReport.parse (0x01 :: List.replicate 80 0) =
      some (parsePayload ((0x01 :: List.replicate 80 0).drop 1)) ∧
    DualSenseInputReport.parse [] = none ∧
    DualSenseInputReport.parse [5] = none := by
  refine ⟨?_, ?_, ?_, ?_⟩
  · exact (c10_parse_total _).2.2.2.2.2 _ rfl (by decide)
  · exact (c10_parse_total _).2.2.1 _ rfl (by decide)
  · exact (c10_parse_total _).1 rfl
  · exact (c10_parse_total _).2.1 5 [] rfl (by decide) (by decide)

/-- C3 counterexample: a read of 78 bytes on a session whose cached kind
is USB. Fresh classification of the length 78 yields Bluetooth, yet the
source decodes through the USB framing (payload offset 1) and leaves the
cached kind USB; the report decoded at offset 1 provably differs from the
one at offset 2 on this buffer, so the decode does not use the freshly
classified kind and the cache is not updated. -/
theorem c3_cached_kind_counterexample :
    DualSenseConnectionType.from_report_size 78 =
      some DualSenseConnectionType.BT ∧
    read_input_report DualSenseConnectionType.USB (Except.ok (exBuf78, 78)) =
      Except.ok (parsePayload (exBuf78.drop 1), DualSenseConnectionType.USB) ∧
    parsePayload (exBuf78.drop 1) ≠ parsePayload (exBuf78.drop 2) ∧
    DualSenseConnectionType.USB ≠ DualSenseConnectionType.BT := by
  refine ⟨rfl, rfl, by decide, by decide⟩

/-- C3 amended: for every read returning a nonzero byte count the session
decodes through the framing struct selected by its CACHED connection kind,
at that kind's payload offset, regardless of the byte count, and the
cached kind is left unchanged. -/
theorem c3_cached_kind_amended (ct : DualSenseConnectionType)
    (buf : List Nat) (size : Nat) (h : size ≠ 0) :
    read_input_report ct (Except.ok (buf, size)) =
      Except.ok (parsePayload (buf.drop (payloadOffset ct)), ct) := by
  cases ct <;> simp [read_input_report, payloadOffset, h]

/-- C3 witness: a session with cached kind Bluetooth decodes a read of 64
bytes (the USB length) at the Bluetooth payload offset 2 and keeps kind
Bluetooth. -/
theorem c3_cached_kind_amended_witness :
    read_input_report DualSenseConnectionType.BT (Except.ok (exBuf78, 64)) =
      Except.ok (parsePayload (exBuf78.drop 2), DualSenseConnectionType.BT) :=
  c3_cached_kind_amended DualSenseConnectionType.BT exBuf78 64 (by decide)

/-- C4 counterexample: a zero-length read makes the session read fail with
the Disconnected error, but the status-update path of the registry
swallows that error: with device 7 present in the registry, the registry
is returned unchanged and no event at all is emitted, instead of the entry
being removed and one Disconnected event being emitted as claimed. -/
theorem c4_zero_read_counterexample :
    read_input_report DualSenseConnectionType.USB
      (Except.ok (List.replicate 78 0, 0)) =
      Except.error HidError.Disconnected ∧
    update_device_status true [(7, exDev)] 7
      (Except.error HidError.Disconnected) = ([(7, exDev)], []) ∧
    update_device_status true [(7, exDev)] 7
      (Except.error HidError.Disconnected) ≠
      ([], [DeviceManagerEvent.Disconnected 7]) := by
  refine ⟨rfl, rfl, by decide⟩

/-- C4 amended: a zero-length read makes the session read fail with the
Disconnected error; the status-update path swallows any read error,
leaving the registry unchanged and emitting no event; removal from the
registry together with a single Disconnected event happens only in
close_device, the handler of a hotplug disconnect notification. -/
theorem c4_zero_read_amended :
    (∀ (ct : DualSenseConnectionType) (buf : List Nat),
      read_input_report ct (Except.ok (buf, 0)) =
        Except.error HidError.Disconnected) ∧
    (∀ (hs : Bool) (reg : Registry) (id : Nat) (e : HidError),
      update_device_status hs reg id (Except.error e) = (reg, [])) ∧
    (∀ (reg : Registry) (id : Nat),
      close_device true reg id =
        (reg.filter (fun p => p.1 ≠ id), [DeviceManagerEvent.Disconnected id])) := by
  refine ⟨fun ct buf => rfl, fun hs reg id e => ?_, fun reg id => rfl⟩
  cases hs <;> rfl

/-- C5: for every byte length other than 64 and 78 the classifier returns
none, and the draft decoder of src/dualsense.rs reacts to such a length by
panicking with the message Unknown report format on every buffer, rather
than returning a typed malformed-report error. -/
theorem c5_unrecognized_length (size : Nat) (h64 : size ≠ 64) (h78 : size ≠ 78) :
    DualSenseConnectionType.from_report_size size = none ∧
    ∀ data : List Nat, DualSenseInputReport.parse_report data size =
      ParseOutcome.panicked "Unknown report format" := by
  constructor
  · simp [DualSenseConnectionType.from_report_size, DS_INPUT_REPORT_BT_SIZE,
      DS_INPUT_REPORT_USB_SIZE, h64, h78]
  · intro data
    simp [DualSenseInputReport.parse_report, DS_INPUT_REPORT_BT_SIZE,
      DS_INPUT_REPORT_USB_SIZE, h64, h78]

/-- C5 witness: the behavior at the concrete unrecognized length 5. -/
theorem c5_unrecognized_length_witness :
    DualSenseConnectionType.from_report_size 5 = none ∧
    DualSenseInputReport.parse_report (List.replicate 78 0) 5 =
      ParseOutcome.panicked "Unknown report format" := by
  have h := c5_unrecognized_length 5 (by decide) (by decide)
  exact ⟨h.1, h.2 _⟩

/- Registry lemmas for the open-all fold. -/

theorem update_device_status_fst (hs : Bool) (reg : Registry) (id : Nat)
    (rr : Except HidError DualSenseInputReport) :
    (update_device_status hs reg id rr).1 = reg := by
  cases hs <;> cases rr <;> rfl

theorem insert_device_fst (hs : Bool) (reg : Registry) (d : DualSense)
    (rr : Except HidError DualSenseInputReport) :
    (insert_device hs reg d rr).1 = insertEntry reg d.id d := by
  cases hs
  · rfl
  · simp [insert_device, update_device_status_fst]

theorem countConnected_insert_device (reg : Registry) (d : DualSense)
    (rr : Except HidError DualSenseInputReport) :
    countConnected (insert_device true reg d rr).2 = 1 := by
  cases rr <;> rfl

theorem countConnected_append (a b : List DeviceManagerEvent) :
    countConnected (a ++ b) = countConnected a + countConnected b := by
  simp [countConnected, List.countP_append]

theorem countOk_cons_ok (x : DualSense × Except HidError DualSenseInputReport)
    (rest : List (Except HidError (DualSense × Except HidError DualSenseInputReport))) :
    countOk (Except.ok x :: rest) = countOk rest + 1 := by
  simp [countOk, List.countP_cons]

theorem countOk_cons_error (e : HidError)
    (rest : List (Except HidError (DualSense × Except HidError DualSenseInputReport))) :
    countOk (Except.error e :: rest) = countOk rest := by
  simp [countOk, List.countP_cons]

theorem containsId_insertEntry (reg : Registry) (i j : Nat) (d : DualSense) :
    containsId (insertEntry reg i d) j = true ↔ j = i ∨ containsId reg j = true := by
  simp only [containsId, insertEntry, List.any_cons, List.any_eq_true,
    List.mem_filter, decide_eq_true_eq, Bool.or_eq_true]
  constructor
  · rintro (h | ⟨p, ⟨hp, _⟩, he⟩)
    · exact Or.inl h.symm
    · exact Or.inr ⟨p, hp, he⟩
  · rintro (h | ⟨p, hp, he⟩)
    · exact Or.inl h.symm
    · by_cases hpi : p.1 = i
      · exact Or.inl (by omega)
      · exact Or.inr ⟨p, ⟨hp, hpi⟩, he⟩

theorem open_all_loop_mono (hs : Bool)
    (outs : List (Except HidError (DualSense × Except HidError DualSenseInputReport)))
    (reg : Registry) (j : Nat) (h : containsId reg j = true) :
    containsId (open_all_loop hs reg outs).1 j = true := by
  induction outs generalizing reg with
  | nil => exact h
  | cons o rest ih =>
    cases o with
    | error e => exact ih reg h
    | ok p =>
      obtain ⟨d, rr⟩ := p
      show containsId (open_all_loop hs (insert_device hs reg d rr).1 rest).1 j = true
      apply ih
      rw [insert_device_fst]
      exact (containsId_insertEntry reg d.id j d).mpr (Or.inr h)

theorem open_all_loop_count (reg : Registry)
    (outs : List (Except HidError (DualSense × Except HidError DualSenseInputReport))) :
    countConnected (open_all_loop true reg outs).2 = countOk outs := by
  induction outs generalizing reg with
  | nil => rfl
  | cons o rest ih =>
    cases o with
    | error e =>
      rw [countOk_cons_error]
      exact ih reg
    | ok p =>
      obtain ⟨d, rr⟩ := p
      show countConnected ((insert_device true reg d rr).2 ++
        (open_all_loop true (insert_device true reg d rr).1 rest).2) = _
      rw [countConnected_append, countConnected_insert_device, ih,
        countOk_cons_ok]
      omega

theorem open_all_loop_mem
    (outs : List (Except HidError (DualSense × Except HidError DualSenseInputReport)))
    (reg : Registry) :
    ∀ d rr, Except.ok (d, rr) ∈ outs →
      containsId (open_all_loop true reg outs).1 d.id = true := by
  induction outs generalizing reg with
  | nil =>
    intro d rr h
    cases h
  | cons o rest ih =>
    intro d rr h
    cases o with
    | error e =>
      rcases List.mem_cons.mp h with h | h
      · exact absurd h (by simp)
      · exact ih reg d rr h
    | ok p =>
      obtain ⟨d0, rr0⟩ := p
      rcases List.mem_cons.mp h with h | h
      · have hd : d = d0 := by
          injection h with h2
          exact congrArg Prod.fst h2
        subst hd
        show containsId
          (open_all_loop true (insert_device true reg d rr0).1 rest).1 d.id = true
        apply open_all_loop_mono
        rw [insert_device_fst]
        exact (containsId_insertEntry reg d.id d.id d).mpr (Or.inl rfl)
      · show containsId
          (open_all_loop true (insert_device true reg d0 rr0).1 rest).1 d.id = true
        exact ih _ d rr h

/-- C8: with an event handler registered, open-all always returns Ok; it
emits exactly one Connected event per successfully opened device, inserts
every successfully opened device into the registry, silently drops every
failed open, and with an empty enumeration it leaves the registry
untouched and emits no event. -/
theorem c8_open_all (reg : Registry)
    (outcomes : List (Except HidError (DualSense × Except HidError DualSenseInputReport))) :
    ∃ regFinal evs,
      open_all_devices true reg outcomes = Except.ok (regFinal, evs) ∧
      countConnected evs = countOk outcomes ∧
      (∀ d rr, Except.ok (d, rr) ∈ outcomes → containsId regFinal d.id = true) ∧
      (outcomes = [] → regFinal = reg ∧ evs = []) := by
  refine ⟨(open_all_loop true reg outcomes).1, (open_all_loop true reg outcomes).2,
    rfl, open_all_loop_count reg outcomes,
    fun d rr h => open_all_loop_mem outcomes reg d rr h, ?_⟩
  intro h
  subst h
  exact ⟨rfl, rfl⟩

/-- C8 witness: with one successful and one failed open, exactly one
Connected event is emitted and the opened identity 3 is in the registry. -/
theorem c8_open_all_witness :
    ∃ regFinal evs,
      open_all_devices true [] exOutcomes = Except.ok (regFinal, evs) ∧
      countConnected evs = 1 ∧ containsId regFinal 3 = true := by
  obtain ⟨rf, evs, h1, h2, h3, _⟩ := c8_open_all [] exOutcomes
  refine ⟨rf, evs, h1, by rw [h2]; rfl, ?_⟩
  exact h3 { id := 3, connection_type := DualSenseConnectionType.USB }
    (Except.error HidError.Disconnected) (by unfold exOutcomes; exact List.Mem.head _)
